import Mathlib

/-
Verification development for the topology_docker_openswitch repository.

The definitions below are a shallow embedding of:
  - the container boot script: the SETUP_SCRIPT string constant in
    lib/topology_docker_openswitch/openswitch.py, of which
    lib/topology_docker_openswitch/boot.py is a near-identical variant
    (the two differ only in the value of config_timeout, the path of the
    persisted mapping file, and in that boot.py does not wrap OS-command
    failures into named Exception messages; the loops, ordering and the
    mapping construction are identical);
  - OpenSwitchNode._setup_system (the in-memory port-table merge) and
    OpenSwitchNode.set_port_state in openswitch.py.

Modelling conventions: OS state (existence of files, hostname, the
interface lists printed by the two directory listings) is passed as
explicit input; time is the count of completed poll sleeps; every
subprocess check_call that the script attempts is recorded, in order, in
a command trace, and an oracle function decides which commands succeed;
Python exceptions are Except / Option values.
-/

/-- OS-level commands the boot script runs through check_call: the rename
command template, the netns move template, the tuntap creation template,
and the final touch of the readiness sentinel file. -/
inductive OsCmd
  | renameInt (portlbl hwport : String)
  | moveNetns (hwport : String)
  | createTap (hwport : String)
  | touchReady
  deriving DecidableEq

/-- Python exceptions that the embedded code can raise. -/
inductive PyErr
  | indexError
  | keyError
  | connectionError
  | exceptionMsg (msg : String)
  | cmdFailed (c : OsCmd)
  deriving DecidableEq

/-- Lookup in an association list, first match wins; models Python dict
indexing (keys are unique in every dict the code builds). -/
def dlookup {β : Type} (k : String) : List (String × β) → Option β
  | [] => none
  | (k0, v) :: rest => if k0 = k then some v else dlookup k rest

/-- Replace the value stored under a key, keeping its position; helper
for the overwrite case of Python dict assignment. -/
def dictReplace (k v : String) : List (String × String) → List (String × String)
  | [] => []
  | (k0, w) :: rest =>
    if k0 = k then (k, v) :: dictReplace k v rest else (k0, w) :: dictReplace k v rest

/-- Python dict assignment d[k] = v: overwrite in place when the key is
present, append at the end when it is new. -/
def dictSet (d : List (String × String)) (k v : String) : List (String × String) :=
  if (dlookup k d).isSome then dictReplace k v d else d ++ [(k, v)]

/-- Python dict.update: assign every pair of m into d, in order. -/
def dictUpdate (d m : List (String × String)) : List (String × String) :=
  m.foldl (fun acc kv => dictSet acc kv.1 kv.2) d

/-- Membership test of the reserved exclusion set in create_interfaces:
the literal list of names skipped by the move loop. -/
def excludedIf (s : String) : Bool :=
  s == "lo" || s == "oobm" || s == "bonding_masters"

/-- Interfaces of a listing that the move loop does not skip. -/
def nonExcluded : List String → List String
  | [] => []
  | p :: rest => if excludedIf p then nonExcluded rest else p :: nonExcluded rest

/-- Commands the move loop issues for a list of (portlbl, hwport) pairs:
a rename followed by a netns move per pair. -/
def moveCmds : List (String × String) → List OsCmd
  | [] => []
  | kv :: rest => OsCmd.renameInt kv.1 kv.2 :: OsCmd.moveNetns kv.2 :: moveCmds rest

/-- Commands the backfill loop issues: a tuntap creation followed by a
netns move for every leftover label not already inside the namespace. -/
def backfillCmds (inSwns : List String) : List String → List OsCmd
  | [] => []
  | h :: rest =>
    if h ∈ inSwns then backfillCmds inSwns rest
    else OsCmd.createTap h :: OsCmd.moveNetns h :: backfillCmds inSwns rest

/-- Inputs of one create_interfaces run: the declared port names read from
ports.yaml in order, the interface listing outside the swns namespace, the
listing inside it, and the oracle deciding which check_call commands
succeed. -/
structure BootEnv where
  hwports : List String
  notInSwns : List String
  inSwns : List String
  cmdOk : OsCmd → Bool

/-- Observable outcome of one create_interfaces run: the check_call
commands attempted in order, the content of the persisted mapping file
(none when the write statement was never reached), whether the readiness
sentinel was touched, and the exception that escaped, if any. -/
structure CITrace where
  cmds : List OsCmd
  mappingFile : Option (List (String × String))
  readyTouched : Bool
  error : Option PyErr
  deriving DecidableEq

/-- First loop of create_interfaces: for every listed interface outside
the namespace that is not in the exclusion set, pop the first declared
label, record interface-name to label in the mapping dict, then try the
rename and the netns move; a failing command raises the named exception,
an exhausted label list raises IndexError from the pop. -/
def moveLoop (ok : OsCmd → Bool) :
    List String → List String → List (String × String) → List OsCmd →
    Except (List OsCmd × PyErr) (List String × List (String × String) × List OsCmd)
  | [], hwports, mp, cmds => Except.ok (hwports, mp, cmds)
  | portlbl :: rest, hwports, mp, cmds =>
    if excludedIf portlbl then
      moveLoop ok rest hwports mp cmds
    else
      match hwports with
      | [] => Except.error (cmds, PyErr.indexError)
      | hwport :: hwrest =>
        let mp2 := dictSet mp portlbl hwport
        let cmds2 := cmds ++ [OsCmd.renameInt portlbl hwport]
        if ok (OsCmd.renameInt portlbl hwport) then
          let cmds3 := cmds2 ++ [OsCmd.moveNetns hwport]
          if ok (OsCmd.moveNetns hwport) then
            moveLoop ok rest hwrest mp2 cmds3
          else
            Except.error (cmds3, PyErr.exceptionMsg "Failed to map ports with port labels")
        else
          Except.error (cmds2, PyErr.exceptionMsg "Failed to map ports with port labels")

/-- Second loop of create_interfaces: every declared label left after the
move loop that is not already listed inside the namespace is created as a
tap device and moved in; failures raise the named exceptions. -/
def backfillLoop (ok : OsCmd → Bool) (inSwns : List String) :
    List String → List OsCmd → Except (List OsCmd × PyErr) (List OsCmd)
  | [], cmds => Except.ok cmds
  | hwport :: rest, cmds =>
    if hwport ∈ inSwns then
      backfillLoop ok inSwns rest cmds
    else
      let cmds2 := cmds ++ [OsCmd.createTap hwport]
      if ok (OsCmd.createTap hwport) then
        let cmds3 := cmds2 ++ [OsCmd.moveNetns hwport]
        if ok (OsCmd.moveNetns hwport) then
          backfillLoop ok inSwns rest cmds3
        else
          Except.error (cmds3, PyErr.exceptionMsg "Failed to move port to swns netns")
      else
        Except.error (cmds2, PyErr.exceptionMsg "Failed to create tuntap")

/-- Embedding of create_interfaces: run the move loop, then write the
mapping file, then run the backfill loop, then touch the readiness
sentinel. The mapping file is written exactly when the move loop returned
normally, and it holds the move-loop mapping whatever happens later. -/
def create_interfaces (env : BootEnv) : CITrace :=
  match moveLoop env.cmdOk env.notInSwns env.hwports [] [] with
  | Except.error (cs, e) => ⟨cs, none, false, some e⟩
  | Except.ok (hwrest, mp, cmds) =>
    match backfillLoop env.cmdOk env.inSwns hwrest cmds with
    | Except.error (cs2, e) => ⟨cs2, some mp, false, some e⟩
    | Except.ok cmds2 =>
      if env.cmdOk OsCmd.touchReady then
        ⟨cmds2 ++ [OsCmd.touchReady], some mp, true, none⟩
      else
        ⟨cmds2 ++ [OsCmd.touchReady], some mp, false, some (PyErr.cmdFailed OsCmd.touchReady)⟩

/-- Values a parsed JSON response can hold in a row (json.loads output):
null, booleans, integers and strings. -/
inductive PyVal
  | vNone
  | vBool (b : Bool)
  | vInt (n : Int)
  | vStr (s : String)
  deriving DecidableEq

/-- Python comparison v == 1 as performed by cur_cfg_is_set: integers
compare numerically, booleans are numeric in Python (True == 1 holds),
strings and None are never equal to 1. -/
def pyEqOne : PyVal → Bool
  | PyVal.vInt n => decide (n = 1)
  | PyVal.vBool b => decide ((if b then (1 : Int) else 0) = 1)
  | PyVal.vStr _ => false
  | PyVal.vNone => false

/-- Python truthiness of a value, as used by the negated poll condition
on the cur_cfg_is_set return value. -/
def pyTruthy : PyVal → Bool
  | PyVal.vNone => false
  | PyVal.vBool b => b
  | PyVal.vInt n => decide (n ≠ 0)
  | PyVal.vStr s => decide (s ≠ "")

/-- One element of the result array of a transact response: its rows,
each row a dict from column name to value. -/
structure ResItem where
  rows : List (List (String × PyVal))
  deriving DecidableEq

/-- Parsed body of one control-socket response: the result array. -/
structure DbResponse where
  result : List ResItem
  deriving DecidableEq

/-- Result of one evaluation of the response-parsing part of
cur_cfg_is_set: a returned value, or an uncaught exception. -/
inductive CurCfgOutcome
  | ok (v : PyVal)
  | raises (e : PyErr)
  deriving DecidableEq

/-- Parsing part of cur_cfg_is_set, after the socket exchange: index into
result[0].rows[0], compare the cur_hw column with 1; an IndexError from
either empty list is caught and turned into the return value 0; a missing
cur_hw key raises KeyError, which the except clause does not catch. -/
def cur_cfg_is_set_eval (resp : DbResponse) : CurCfgOutcome :=
  match resp.result with
  | [] => CurCfgOutcome.ok (PyVal.vInt 0)
  | r0 :: _ =>
    match r0.rows with
    | [] => CurCfgOutcome.ok (PyVal.vInt 0)
    | row :: _ =>
      match dlookup "cur_hw" row with
      | none => CurCfgOutcome.raises PyErr.keyError
      | some v => CurCfgOutcome.ok (PyVal.vBool (pyEqOne v))

/-- Control-socket environment of one provisioning attempt: whether the
lazy one-time connect succeeds, and the parsed response returned by the
daemon at each poll instant. -/
structure CurCfgWorld where
  connectOk : Bool
  resp : Nat → DbResponse

/-- The cur_cfg poll loop of main: at each of the budgeted iterations it
calls cur_cfg_is_set, which connects the module-level socket on first use
(a failing connect raises and aborts), then parses the response; a falsy
return sleeps and retries, a truthy one ends the loop. Returns the poll
instant of success, none on timeout, or the escaped exception. -/
def curCfgLoop (w : CurCfgWorld) : Nat → Nat → Bool → Except PyErr (Option Nat)
  | 0, _, _ => Except.ok none
  | Nat.succ b, t, connected =>
    if connected = false ∧ w.connectOk = false then
      Except.error PyErr.connectionError
    else
      match cur_cfg_is_set_eval (w.resp t) with
      | CurCfgOutcome.raises e => Except.error e
      | CurCfgOutcome.ok v =>
        if pyTruthy v then Except.ok (some t) else curCfgLoop w b (t + 1) true

/-- Response shape that the spec calls an empty result row-set: the
result array has a first element whose rows list is empty. -/
def rowSetEmpty (resp : DbResponse) : Prop :=
  ∃ r0 rest, resp.result = r0 :: rest ∧ r0.rows = []

/-- One bounded existence-poll loop of main: up to the budget, test the
predicate at the current instant; on failure sleep (advancing the clock)
and retry; on success break. Returns the instant of success, or none when
the for loop ends and the else clause raises. -/
def pollLoop (p : Nat → Bool) : Nat → Nat → Option Nat
  | 0, _ => none
  | Nat.succ b, t => if p t then some t else pollLoop p b (t + 1)

/-- The six readiness checks of main, in their source order. -/
inductive BootCheck
  | swns
  | hwdesc
  | dbSock
  | switchdPid
  | hostname
  | curCfg
  deriving DecidableEq

/-- Message of the exception main raises when the given check times out,
exactly as written in the source. -/
def timeoutMsg : BootCheck → String
  | BootCheck.swns => "Timed out while waiting for swns."
  | BootCheck.hwdesc => "Timed out while waiting for hwdesc directory."
  | BootCheck.dbSock => "Timed out while waiting for DB socket."
  | BootCheck.switchdPid => "Timed out while waiting for switchd pid."
  | BootCheck.hostname => "Timed out while waiting for final hostname."
  | BootCheck.curCfg => "Timed out while waiting for cur_cfg."

/-- Container-side world observed by one run of main: the time-indexed
existence predicates polled by the four filesystem checks, the hostname,
the control-socket environment, and the create_interfaces inputs. -/
structure World where
  swnsExists : Nat → Bool
  hwdescExists : Nat → Bool
  dbSockExists : Nat → Bool
  switchdPidExists : Nat → Bool
  hostname : Nat → String
  db : CurCfgWorld
  ci : BootEnv

/-- Outcome of one run of main: which check (if any) raised its timeout,
the create_interfaces trace when that call was reached, and the exception
that escaped main, if any. -/
structure MainOutcome where
  failedCheck : Option BootCheck
  ciTrace : Option CITrace
  error : Option PyErr
  deriving DecidableEq

/-- Embedding of main: the swns and hwdesc existence checks, then
create_interfaces, then the DB socket, switchd pid, hostname and cur_cfg
checks, each a bounded poll with the same budget; the first check to
exhaust its budget raises its named timeout exception and ends the run. -/
def mainRun (cT : Nat) (w : World) : MainOutcome :=
  match pollLoop w.swnsExists cT 0 with
  | none => ⟨some BootCheck.swns, none, some (PyErr.exceptionMsg "Timed out while waiting for swns.")⟩
  | some t1 =>
    match pollLoop w.hwdescExists cT t1 with
    | none => ⟨some BootCheck.hwdesc, none, some (PyErr.exceptionMsg "Timed out while waiting for hwdesc directory.")⟩
    | some t2 =>
      match (create_interfaces w.ci).error with
      | some e => ⟨none, some (create_interfaces w.ci), some e⟩
      | none =>
        match pollLoop w.dbSockExists cT t2 with
        | none => ⟨some BootCheck.dbSock, some (create_interfaces w.ci), some (PyErr.exceptionMsg "Timed out while waiting for DB socket.")⟩
        | some t3 =>
          match pollLoop w.switchdPidExists cT t3 with
          | none => ⟨some BootCheck.switchdPid, some (create_interfaces w.ci), some (PyErr.exceptionMsg "Timed out while waiting for switchd pid.")⟩
          | some t4 =>
            match pollLoop (fun t => w.hostname t == "switch") cT t4 with
            | none => ⟨some BootCheck.hostname, some (create_interfaces w.ci), some (PyErr.exceptionMsg "Timed out while waiting for final hostname.")⟩
            | some t5 =>
              match curCfgLoop w.db cT t5 false with
              | Except.error e => ⟨none, some (create_interfaces w.ci), some e⟩
              | Except.ok none => ⟨some BootCheck.curCfg, some (create_interfaces w.ci), some (PyErr.exceptionMsg "Timed out while waiting for cur_cfg.")⟩
              | Except.ok (some _) => ⟨none, some (create_interfaces w.ci), none⟩

/-- Whole boot script entry: the only command-line handling in main is
the test for the -d debug flag, which configures logging; everything else
is mainRun and does not read argv. -/
def mainScript (cT : Nat) (argv : List String) (w : World) : Bool × MainOutcome :=
  (argv.contains "-d", mainRun cT w)

/-- Commands set_port_state sends through docker exec: the live listing
of the default-namespace interfaces, and one administrative link state
command (its first flag tells whether it is wrapped in the swns netns
context). -/
inductive DockerExec
  | lsNet
  | linkSet (swnsCtx : Bool) (iface : String) (up : Bool)
  deriving DecidableEq

/-- Test for the administrative link command among the exec trace. -/
def isLinkSet : DockerExec → Bool
  | DockerExec.linkSet _ _ _ => true
  | DockerExec.lsNet => false

/-- Embedding of OpenSwitchNode.set_port_state: resolve the port label in
the node port table (a missing label raises KeyError), re-list the
interfaces outside the namespace, pick the namespace context by membership
of the resolved device in that fresh listing, and issue exactly one link
up or down command. liveNotInNetns is the listing returned by the exec at
this call. -/
def set_port_state (ports : List (String × String)) (liveNotInNetns : List String)
    (portlbl : String) (st : Bool) : Except PyErr (List DockerExec) :=
  match dlookup portlbl ports with
  | none => Except.error PyErr.keyError
  | some iface =>
    Except.ok [DockerExec.lsNet,
      DockerExec.linkSet (!(liveNotInNetns.contains iface)) iface st]

/-- Port-table update at the end of OpenSwitchNode._setup_system: when the
node already has a ports table the read-back mapping is merged into it
with dict.update, otherwise the mapping becomes the table. -/
def setup_ports_update : Option (List (String × String)) → List (String × String) →
    List (String × String)
  | some ports, mappings => dictUpdate ports mappings
  | none, mappings => mappings

/-- Boot world used for claim C1: the first two checks pass at once, the
script has one interface to provision, and the DB socket never appears. -/
def c1World : World :=
  ⟨fun _ => true, fun _ => true, fun _ => false, fun _ => false, fun _ => "switch",
   ⟨true, fun _ => ⟨[]⟩⟩, ⟨["1"], ["eth1"], [], fun _ => true⟩⟩

/-- Provisioning inputs of the end-to-end scenario of claim C2: declared
labels 1, 2, 3; listing outside the namespace shows eth4, eth5 and lo;
nothing inside the namespace yet; every command succeeds. -/
def c2Env : BootEnv :=
  ⟨["1", "2", "3"], ["eth4", "eth5", "lo"], [], fun _ => true⟩

/-- First-run inputs for claim C3: one declared label, one unassigned
interface. -/
def c3EnvFirst : BootEnv := ⟨["1"], ["eth1", "lo"], [], fun _ => true⟩

/-- Second-run inputs for claim C3: the state left by the first run, with
the declared label already present inside the namespace and only excluded
names outside. -/
def c3EnvSecond : BootEnv := ⟨["1"], ["lo"], ["1", "lo"], fun _ => true⟩

/-- Response for claim C4 whose first row carries cur_hw = true, the JSON
boolean, not the integer 1. -/
def c4RespTrue : DbResponse := ⟨[⟨[[("cur_hw", PyVal.vBool true)]]⟩]⟩

/-- Response for the witness of claim C4: first row carries cur_hw = 1. -/
def c4RespOne : DbResponse := ⟨[⟨[[("cur_hw", PyVal.vInt 1)]]⟩]⟩

/-- Boot world used for claim C7: no check predicate ever becomes true. -/
def c7World : World :=
  ⟨fun _ => false, fun _ => false, fun _ => false, fun _ => false, fun _ => "host",
   ⟨true, fun _ => ⟨[]⟩⟩, ⟨[], [], [], fun _ => true⟩⟩

/-- Provisioning inputs for claim C10: the move loop succeeds on eth4 and
eth5, then the backfill tap creation for leftover label 3 fails. -/
def c10Env : BootEnv :=
  ⟨["1", "2", "3"], ["eth4", "eth5", "lo"], [],
   fun c => match c with | OsCmd.createTap _ => false | _ => true⟩

/- ------------------------------------------------------------------ -/
/- Lemmas on the dict model.                                          -/
/- ------------------------------------------------------------------ -/

theorem dlookup_append_none {β : Type} (k : String) (d1 d2 : List (String × β))
    (h : dlookup k d1 = none) : dlookup k (d1 ++ d2) = dlookup k d2 := by
  induction d1 with
  | nil => rfl
  | cons kv rest ih =>
    obtain ⟨k0, v⟩ := kv
    by_cases hk : k0 = k
    · simp [dlookup, hk] at h
    · simp only [dlookup, if_neg hk] at h
      simp only [List.cons_append, dlookup, if_neg hk]
      exact ih h

theorem dlookup_append_some {β : Type} (k : String) (d1 d2 : List (String × β)) (v : β)
    (h : dlookup k d1 = some v) : dlookup k (d1 ++ d2) = some v := by
  induction d1 with
  | nil => simp [dlookup] at h
  | cons kv rest ih =>
    obtain ⟨k0, w⟩ := kv
    by_cases hk : k0 = k
    · simp only [dlookup, if_pos hk] at h
      simp only [List.cons_append, dlookup, if_pos hk]
      exact h
    · simp only [dlookup, if_neg hk] at h
      simp only [List.cons_append, dlookup, if_neg hk]
      exact ih h

theorem dlookup_eq_none_of_not_mem {β : Type} (k : String) (m : List (String × β))
    (h : k ∉ m.map Prod.fst) : dlookup k m = none := by
  induction m with
  | nil => rfl
  | cons kv rest ih =>
    obtain ⟨k0, v⟩ := kv
    simp only [List.map_cons, List.mem_cons, not_or] at h
    have hne : ¬ (k0 = k) := fun hx => h.1 hx.symm
    simp only [dlookup, if_neg hne]
    exact ih h.2

theorem dlookup_dictReplace_ne (k0 v k : String) (d : List (String × String))
    (hk : k ≠ k0) :
    dlookup k (dictReplace k0 v d) = dlookup k d := by
  induction d with
  | nil => rfl
  | cons kv rest ih =>
    obtain ⟨ka, va⟩ := kv
    have hne : ¬ (k0 = k) := fun hx => hk hx.symm
    by_cases ha : ka = k0
    · subst ha
      simp only [dictReplace, if_pos rfl, dlookup, if_neg hne]
      rw [ih]
    · simp only [dictReplace, if_neg ha, dlookup]
      by_cases hb : ka = k
      · simp [hb]
      · simp only [if_neg hb]
        exact ih

theorem dlookup_dictReplace_eq (k0 v : String) (d : List (String × String)) :
    dlookup k0 (dictReplace k0 v d) = (dlookup k0 d).map (fun _ => v) := by
  induction d with
  | nil => rfl
  | cons kv rest ih =>
    obtain ⟨ka, va⟩ := kv
    by_cases ha : ka = k0
    · subst ha
      simp [dictReplace, dlookup]
    · simp only [dictReplace, if_neg ha, dlookup, if_neg ha]
      exact ih

theorem dlookup_dictSet (d : List (String × String)) (k0 v k : String) :
    dlookup k (dictSet d k0 v) = if k = k0 then some v else dlookup k d := by
  unfold dictSet
  by_cases hs : (dlookup k0 d).isSome
  · rw [if_pos hs]
    by_cases hk : k = k0
    · subst hk
      rw [dlookup_dictReplace_eq, if_pos rfl]
      obtain ⟨w, hw⟩ := Option.isSome_iff_exists.mp hs
      rw [hw]
      rfl
    · rw [dlookup_dictReplace_ne _ _ _ _ hk, if_neg hk]
  · rw [if_neg hs]
    have h0 : dlookup k0 d = none := Option.not_isSome_iff_eq_none.mp hs
    by_cases hk : k = k0
    · subst hk
      rw [dlookup_append_none _ _ _ h0, if_pos rfl]
      simp [dlookup]
    · rw [if_neg hk]
      cases hkd : dlookup k d with
      | some w => exact dlookup_append_some _ _ _ _ hkd
      | none =>
        rw [dlookup_append_none _ _ _ hkd]
        have hne : ¬ (k0 = k) := fun hx => hk hx.symm
        simp [dlookup, if_neg hne]

theorem dictSet_of_none (d : List (String × String)) (k v : String)
    (h : dlookup k d = none) : dictSet d k v = d ++ [(k, v)] := by
  unfold dictSet
  rw [h]
  rfl

theorem dictUpdate_nil (d : List (String × String)) : dictUpdate d [] = d := rfl

theorem dictUpdate_cons (d : List (String × String)) (k v : String)
    (m : List (String × String)) :
    dictUpdate d ((k, v) :: m) = dictUpdate (dictSet d k v) m := rfl

theorem dlookup_dictUpdate (k : String) :
    ∀ (m d : List (String × String)), (m.map Prod.fst).Nodup →
      dlookup k (dictUpdate d m) =
        (match dlookup k m with | some v => some v | none => dlookup k d) := by
  intro m
  induction m with
  | nil => intro d _; rfl
  | cons kv rest ih =>
    intro d hnd
    obtain ⟨k0, v0⟩ := kv
    simp only [List.map_cons, List.nodup_cons] at hnd
    rw [dictUpdate_cons, ih _ hnd.2]
    by_cases hk : k = k0
    · subst hk
      have hrest : dlookup k rest = none :=
        dlookup_eq_none_of_not_mem _ _ hnd.1
      rw [hrest, dlookup_dictSet, if_pos rfl]
      simp [dlookup]
    · have hne : ¬ (k0 = k) := fun hx => hk hx.symm
      simp only [dlookup, if_neg hne]
      rw [dlookup_dictSet, if_neg hk]

theorem dictUpdate_eq_append :
    ∀ (m d : List (String × String)),
      (∀ kv ∈ m, dlookup kv.1 d = none) → (m.map Prod.fst).Nodup →
      dictUpdate d m = d ++ m := by
  intro m
  induction m with
  | nil => intro d _ _; simp [dictUpdate]
  | cons kv rest ih =>
    intro d hdisj hnd
    obtain ⟨k0, v0⟩ := kv
    simp only [List.map_cons, List.nodup_cons] at hnd
    rw [dictUpdate_cons, dictSet_of_none _ _ _ (hdisj _ (List.mem_cons_self _ _))]
    rw [ih (d ++ [(k0, v0)]) ?_ hnd.2]
    · simp
    · intro kv2 hkv2
      have hne : kv2.1 ≠ k0 := by
        intro hx
        exact hnd.1 (hx ▸ List.mem_map_of_mem Prod.fst hkv2)
      have hne2 : ¬ (k0 = kv2.1) := fun hx => hne hx.symm
      rw [dlookup_append_none _ _ _ (hdisj _ (List.mem_cons_of_mem _ hkv2))]
      simp [dlookup, if_neg hne2]

/- ------------------------------------------------------------------ -/
/- Lemmas on the poll loops and the provisioning loops.               -/
/- ------------------------------------------------------------------ -/

theorem pollLoop_eq_none (p : Nat → Bool) (h : ∀ t, p t = false) :
    ∀ (b t : Nat), pollLoop p b t = none := by
  intro b
  induction b with
  | zero => intro t; rfl
  | succ b ih =>
    intro t
    simp only [pollLoop, h t, Bool.false_eq_true, if_false]
    exact ih (t + 1)

theorem moveLoop_ok (ok : OsCmd → Bool) (hok : ∀ c, ok c = true) :
    ∀ (l hw : List String) (mp : List (String × String)) (cmds : List OsCmd),
      (nonExcluded l).length ≤ hw.length →
      moveLoop ok l hw mp cmds =
        Except.ok (hw.drop (nonExcluded l).length,
          dictUpdate mp ((nonExcluded l).zip hw),
          cmds ++ moveCmds ((nonExcluded l).zip hw)) := by
  intro l
  induction l with
  | nil =>
    intro hw mp cmds _
    simp [moveLoop, nonExcluded, dictUpdate, moveCmds]
  | cons p rest ih =>
    intro hw mp cmds hlen
    by_cases hp : excludedIf p = true
    · have hne : nonExcluded (p :: rest) = nonExcluded rest := by
        simp [nonExcluded, hp]
      rw [hne] at hlen ⊢
      simp only [moveLoop, hp, if_true]
      exact ih hw mp cmds hlen
    · have hp2 : excludedIf p = false := by
        exact Bool.not_eq_true _ ▸ eq_false_of_ne_true hp
      have hne : nonExcluded (p :: rest) = p :: nonExcluded rest := by
        simp [nonExcluded, hp2]
      rw [hne] at hlen ⊢
      cases hw with
      | nil => simp at hlen
      | cons h0 hwrest =>
        simp only [List.length_cons, Nat.succ_le_succ_iff] at hlen
        simp only [moveLoop, hp2, Bool.false_eq_true, if_false,
          hok (OsCmd.renameInt p h0), hok (OsCmd.moveNetns h0), if_true]
        rw [ih hwrest (dictSet mp p h0)
          (cmds ++ [OsCmd.renameInt p h0] ++ [OsCmd.moveNetns h0]) hlen]
        simp only [List.zip_cons_cons, List.length_cons, List.drop_succ_cons,
          moveCmds, dictUpdate_cons]
        simp [List.append_assoc, List.zip]

theorem moveLoop_all_excluded (ok : OsCmd → Bool) :
    ∀ (l hw : List String) (mp : List (String × String)) (cmds : List OsCmd),
      (∀ p ∈ l, excludedIf p = true) →
      moveLoop ok l hw mp cmds = Except.ok (hw, mp, cmds) := by
  intro l
  induction l with
  | nil => intro hw mp cmds _; rfl
  | cons p rest ih =>
    intro hw mp cmds hexcl
    simp only [moveLoop, hexcl p (List.mem_cons_self _ _), if_true]
    exact ih hw mp cmds (fun q hq => hexcl q (List.mem_cons_of_mem _ hq))

theorem moveLoop_indexError (ok : OsCmd → Bool) (hok : ∀ c, ok c = true) :
    ∀ (l hw : List String) (mp : List (String × String)) (cmds : List OsCmd),
      hw.length < (nonExcluded l).length →
      ∃ cs, moveLoop ok l hw mp cmds = Except.error (cs, PyErr.indexError) := by
  intro l
  induction l with
  | nil =>
    intro hw mp cmds hlen
    simp [nonExcluded] at hlen
  | cons p rest ih =>
    intro hw mp cmds hlen
    by_cases hp : excludedIf p = true
    · have hne : nonExcluded (p :: rest) = nonExcluded rest := by
        simp [nonExcluded, hp]
      rw [hne] at hlen
      simp only [moveLoop, hp, if_true]
      exact ih hw mp cmds hlen
    · have hp2 : excludedIf p = false := by
        exact Bool.not_eq_true _ ▸ eq_false_of_ne_true hp
      have hne : nonExcluded (p :: rest) = p :: nonExcluded rest := by
        simp [nonExcluded, hp2]
      rw [hne] at hlen
      cases hw with
      | nil =>
        refine ⟨cmds, ?_⟩
        simp [moveLoop, hp2]
      | cons h0 hwrest =>
        simp only [List.length_cons, Nat.succ_lt_succ_iff] at hlen
        simp only [moveLoop, hp2, Bool.false_eq_true, if_false,
          hok (OsCmd.renameInt p h0), hok (OsCmd.moveNetns h0), if_true]
        exact ih hwrest _ _ hlen

theorem moveLoop_error_shape (ok : OsCmd → Bool) :
    ∀ (l hw : List String) (mp : List (String × String)) (cmds cs : List OsCmd)
      (e : PyErr),
      moveLoop ok l hw mp cmds = Except.error (cs, e) →
      e = PyErr.indexError ∨
        e = PyErr.exceptionMsg "Failed to map ports with port labels" := by
  intro l
  induction l with
  | nil =>
    intro hw mp cmds cs e h
    simp [moveLoop] at h
  | cons p rest ih =>
    intro hw mp cmds cs e h
    by_cases hp : excludedIf p = true
    · simp only [moveLoop, hp, if_true] at h
      exact ih hw mp cmds cs e h
    · have hp2 : excludedIf p = false := by
        exact Bool.not_eq_true _ ▸ eq_false_of_ne_true hp
      simp only [moveLoop, hp2, Bool.false_eq_true, if_false] at h
      cases hw with
      | nil =>
        simp only [Except.error.injEq, Prod.mk.injEq] at h
        exact Or.inl h.2.symm
      | cons h0 hwrest =>
        cases hrn : ok (OsCmd.renameInt p h0) with
        | false =>
          simp only [hrn, Bool.false_eq_true, if_false, Except.error.injEq,
            Prod.mk.injEq] at h
          exact Or.inr h.2.symm
        | true =>
          simp only [hrn, if_true] at h
          cases hmv : ok (OsCmd.moveNetns h0) with
          | false =>
            simp only [hmv, Bool.false_eq_true, if_false, Except.error.injEq,
              Prod.mk.injEq] at h
            exact Or.inr h.2.symm
          | true =>
            simp only [hmv, if_true] at h
            exact ih _ _ _ cs e h

theorem backfillLoop_ok (ok : OsCmd → Bool) (hok : ∀ c, ok c = true)
    (inSwns : List String) :
    ∀ (hw : List String) (cmds : List OsCmd),
      backfillLoop ok inSwns hw cmds =
        Except.ok (cmds ++ backfillCmds inSwns hw) := by
  intro hw
  induction hw with
  | nil => intro cmds; simp [backfillLoop, backfillCmds]
  | cons h0 rest ih =>
    intro cmds
    by_cases hmem : h0 ∈ inSwns
    · simp only [backfillLoop, backfillCmds, if_pos hmem]
      exact ih cmds
    · simp only [backfillLoop, backfillCmds, if_neg hmem,
        hok (OsCmd.createTap h0), hok (OsCmd.moveNetns h0), if_true]
      rw [ih]
      simp [List.append_assoc]

theorem backfillLoop_all_present (ok : OsCmd → Bool) (inSwns : List String) :
    ∀ (hw : List String) (cmds : List OsCmd),
      (∀ h ∈ hw, h ∈ inSwns) →
      backfillLoop ok inSwns hw cmds = Except.ok cmds := by
  intro hw
  induction hw with
  | nil => intro cmds _; rfl
  | cons h0 rest ih =>
    intro cmds hin
    simp only [backfillLoop, if_pos (hin h0 (List.mem_cons_self _ _))]
    exact ih cmds (fun q hq => hin q (List.mem_cons_of_mem _ hq))

theorem cur_cfg_rows_empty (resp : DbResponse) (hre : rowSetEmpty resp) :
    cur_cfg_is_set_eval resp = CurCfgOutcome.ok (PyVal.vInt 0) := by
  obtain ⟨r0, rest, h1, h2⟩ := hre
  unfold cur_cfg_is_set_eval
  rw [h1]
  simp [h2]

/- ------------------------------------------------------------------ -/
/- Claim C1.                                                          -/
/- ------------------------------------------------------------------ -/

/-- Claim C1, corrected: whenever a readiness check of main exhausts its
poll budget, main raises the timeout exception naming exactly that check
and evaluates no later check; however interface provisioning has not
occurred if and only if the timed-out check is the swns or the hwdesc
check, because create_interfaces runs after those two checks and before
the DB socket, switchd pid, hostname and cur_cfg checks. -/
theorem c1_amended (cT : Nat) (w : World) (c : BootCheck)
    (h : (mainRun cT w).failedCheck = some c) :
    (mainRun cT w).error = some (PyErr.exceptionMsg (timeoutMsg c)) ∧
    ((mainRun cT w).ciTrace = none ↔
      (c = BootCheck.swns ∨ c = BootCheck.hwdesc)) := by
  unfold mainRun at h ⊢
  cases e1 : pollLoop w.swnsExists cT 0 with
  | none =>
    simp only [e1] at h ⊢
    injection h with h2
    subst h2
    exact ⟨rfl, by simp⟩
  | some t1 =>
    simp only [e1] at h ⊢
    cases e2 : pollLoop w.hwdescExists cT t1 with
    | none =>
      simp only [e2] at h ⊢
      injection h with h2
      subst h2
      exact ⟨rfl, by simp⟩
    | some t2 =>
      simp only [e2] at h ⊢
      cases e3 : (create_interfaces w.ci).error with
      | some e =>
        simp only [e3] at h
        exact Option.noConfusion h
      | none =>
        simp only [e3] at h ⊢
        cases e4 : pollLoop w.dbSockExists cT t2 with
        | none =>
          simp only [e4] at h ⊢
          injection h with h2
          subst h2
          refine ⟨rfl, ?_⟩
          constructor
          · intro hx
            exact Option.noConfusion hx
          · rintro (hx | hx) <;> cases hx
        | some t3 =>
          simp only [e4] at h ⊢
          cases e5 : pollLoop w.switchdPidExists cT t3 with
          | none =>
            simp only [e5] at h ⊢
            injection h with h2
            subst h2
            refine ⟨rfl, ?_⟩
            constructor
            · intro hx
              exact Option.noConfusion hx
            · rintro (hx | hx) <;> cases hx
          | some t4 =>
            simp only [e5] at h ⊢
            cases e6 : pollLoop (fun t => w.hostname t == "switch") cT t4 with
            | none =>
              simp only [e6] at h ⊢
              injection h with h2
              subst h2
              refine ⟨rfl, ?_⟩
              constructor
              · intro hx
                exact Option.noConfusion hx
              · rintro (hx | hx) <;> cases hx
            | some t5 =>
              simp only [e6] at h ⊢
              cases e7 : curCfgLoop w.db cT t5 false with
              | error e =>
                simp only [e7] at h
                exact Option.noConfusion h
              | ok o =>
                cases o with
                | none =>
                  simp only [e7] at h ⊢
                  injection h with h2
                  subst h2
                  refine ⟨rfl, ?_⟩
                  constructor
                  · intro hx
                    exact Option.noConfusion hx
                  · rintro (hx | hx) <;> cases hx
                | some tv =>
                  simp only [e7] at h
                  exact Option.noConfusion h

/-- Witness for claim C1: in the concrete world c1World the DB socket
check is the one that times out, and its timeout error names the DB
socket while provisioning has already happened. -/
theorem c1_witness :
    (mainRun 2 c1World).error =
      some (PyErr.exceptionMsg (timeoutMsg BootCheck.dbSock)) ∧
    ((mainRun 2 c1World).ciTrace = none ↔
      (BootCheck.dbSock = BootCheck.swns ∨ BootCheck.dbSock = BootCheck.hwdesc)) :=
  c1_amended 2 c1World BootCheck.dbSock (by decide)

/-- Counterexample to claim C1 as stated: in c1World the DB socket check
times out, yet interface provisioning has already occurred in full (the
rename and netns move ran and the mapping file was written), refuting
that a timeout of every check implies no interface provisioning. -/
theorem c1_counterexample :
    (mainRun 2 c1World).failedCheck = some BootCheck.dbSock ∧
    (mainRun 2 c1World).error =
      some (PyErr.exceptionMsg "Timed out while waiting for DB socket.") ∧
    (mainRun 2 c1World).ciTrace =
      some ⟨[OsCmd.renameInt "eth1" "1", OsCmd.moveNetns "1", OsCmd.touchReady],
        some [("eth1", "1")], true, none⟩ := by decide

/- ------------------------------------------------------------------ -/
/- Claim C2.                                                          -/
/- ------------------------------------------------------------------ -/

/-- Claim C2, corrected: for every non-excluded interface visible outside
the private namespace, the provisioner consumes the next declared label
in declared order and records a mapping entry from the discovered device
name to that declared label (device to label, not label to device); each
interface is renamed to the declared label and then moved into the
namespace under that new name, and every leftover declared label not
already inside the namespace is synthesized and moved in but not recorded
in the mapping. For declared labels 1, 2, 3 and unassigned interfaces
eth4, eth5 the persisted mapping is eth4 to 1, eth5 to 2. -/
theorem c2_amended (env : BootEnv) (hok : ∀ c, env.cmdOk c = true)
    (hlen : (nonExcluded env.notInSwns).length ≤ env.hwports.length)
    (hnd : (nonExcluded env.notInSwns).Nodup) :
    (create_interfaces env).mappingFile =
      some ((nonExcluded env.notInSwns).zip env.hwports) ∧
    (create_interfaces env).cmds =
      moveCmds ((nonExcluded env.notInSwns).zip env.hwports) ++
        backfillCmds env.inSwns
          (env.hwports.drop (nonExcluded env.notInSwns).length) ++
        [OsCmd.touchReady] ∧
    (create_interfaces env).error = none := by
  have hmv := moveLoop_ok env.cmdOk hok env.notInSwns env.hwports [] [] hlen
  have hzip : dictUpdate [] ((nonExcluded env.notInSwns).zip env.hwports) =
      (nonExcluded env.notInSwns).zip env.hwports := by
    have hkeys :
        (((nonExcluded env.notInSwns).zip env.hwports).map Prod.fst).Nodup := by
      rw [List.map_fst_zip _ _ hlen]
      exact hnd
    have hap := dictUpdate_eq_append
      ((nonExcluded env.notInSwns).zip env.hwports) []
      (fun kv _ => rfl) hkeys
    simpa using hap
  simp only [create_interfaces, hmv, backfillLoop_ok env.cmdOk hok env.inSwns,
    hok OsCmd.touchReady, if_true]
  simp [hzip, List.append_assoc]

/-- Witness for claim C2: the amended statement evaluated on the concrete
scenario inputs c2Env. -/
theorem c2_witness :
    (create_interfaces c2Env).mappingFile =
      some ((nonExcluded c2Env.notInSwns).zip c2Env.hwports) ∧
    (create_interfaces c2Env).cmds =
      moveCmds ((nonExcluded c2Env.notInSwns).zip c2Env.hwports) ++
        backfillCmds c2Env.inSwns
          (c2Env.hwports.drop (nonExcluded c2Env.notInSwns).length) ++
        [OsCmd.touchReady] ∧
    (create_interfaces c2Env).error = none :=
  c2_amended c2Env (fun _ => rfl) (by decide) (by decide)

/-- Counterexample to claim C2 as stated: on the scenario inputs the
persisted mapping is eth4 to 1 and eth5 to 2 (device name to declared
label), the key 1 is absent from the mapping (so the claimed entry from
label 1 to device eth4 does not exist), and a rename command was issued,
contradicting that interfaces keep their discovered names. -/
theorem c2_counterexample :
    (create_interfaces c2Env).mappingFile = some [("eth4", "1"), ("eth5", "2")] ∧
    dlookup "1" (((create_interfaces c2Env).mappingFile).getD []) = none ∧
    OsCmd.renameInt "eth4" "1" ∈ (create_interfaces c2Env).cmds := by decide

/- ------------------------------------------------------------------ -/
/- Claim C3.                                                          -/
/- ------------------------------------------------------------------ -/

/-- Claim C3, corrected: when every declared label is already present
inside the private namespace and only excluded names remain outside, a
second create_interfaces run issues zero interface-mutation commands (no
rename, no netns move, no tuntap creation; it re-touches the readiness
sentinel only) and raises nothing, but it rewrites the persisted mapping
with the empty mapping, replacing the first run output rather than
reproducing it. -/
theorem c3_amended (env : BootEnv)
    (hexcl : ∀ p ∈ env.notInSwns, excludedIf p = true)
    (hin : ∀ hp ∈ env.hwports, hp ∈ env.inSwns)
    (htouch : env.cmdOk OsCmd.touchReady = true) :
    (create_interfaces env).cmds = [OsCmd.touchReady] ∧
    (create_interfaces env).mappingFile = some [] ∧
    (create_interfaces env).error = none := by
  have hmv := moveLoop_all_excluded env.cmdOk env.notInSwns env.hwports [] [] hexcl
  have hbf := backfillLoop_all_present env.cmdOk env.inSwns env.hwports [] hin
  simp only [create_interfaces, hmv, hbf, htouch, if_true]
  simp

/-- Witness for claim C3: the amended statement evaluated on the
post-first-run state c3EnvSecond. -/
theorem c3_witness :
    (create_interfaces c3EnvSecond).cmds = [OsCmd.touchReady] ∧
    (create_interfaces c3EnvSecond).mappingFile = some [] ∧
    (create_interfaces c3EnvSecond).error = none :=
  c3_amended c3EnvSecond (by decide) (by decide) rfl

/-- Counterexample to claim C3 as stated: the first run on c3EnvFirst
persists the mapping eth1 to 1, the second run on the resulting state
persists the empty mapping, so the two persisted mappings differ and
re-running is not mapping-preserving. -/
theorem c3_counterexample :
    (create_interfaces c3EnvFirst).mappingFile = some [("eth1", "1")] ∧
    (create_interfaces c3EnvSecond).mappingFile = some [] ∧
    (create_interfaces c3EnvSecond).mappingFile ≠
      (create_interfaces c3EnvFirst).mappingFile := by decide

/- ------------------------------------------------------------------ -/
/- Claim C9.                                                          -/
/- ------------------------------------------------------------------ -/

/-- Claim C9, confirmed: when the non-excluded interfaces visible outside
the namespace outnumber the declared labels (and the OS commands
themselves succeed), create_interfaces ends with an uncaught IndexError
from popping the exhausted label list, and the mapping file is never
written. -/
theorem c9_theorem (env : BootEnv) (hok : ∀ c, env.cmdOk c = true)
    (hlen : env.hwports.length < (nonExcluded env.notInSwns).length) :
    (create_interfaces env).error = some PyErr.indexError ∧
    (create_interfaces env).mappingFile = none := by
  obtain ⟨cs, hcs⟩ :=
    moveLoop_indexError env.cmdOk hok env.notInSwns env.hwports [] [] hlen
  simp only [create_interfaces, hcs]
  simp

/-- Witness for claim C9: a run with no declared labels and one
non-excluded interface ends in IndexError. -/
theorem c9_witness :
    (create_interfaces ⟨[], ["eth1"], [], fun _ => true⟩).error =
      some PyErr.indexError ∧
    (create_interfaces ⟨[], ["eth1"], [], fun _ => true⟩).mappingFile = none :=
  c9_theorem ⟨[], ["eth1"], [], fun _ => true⟩ (fun _ => rfl) (by decide)

/- ------------------------------------------------------------------ -/
/- Claim C10.                                                         -/
/- ------------------------------------------------------------------ -/

/-- Claim C10, confirmed: the mapping file is written right after the
move loop and before the backfill loop, so whenever the move loop
completes, the persisted mapping equals the move-loop mapping no matter
what the backfill loop or the final touch do afterwards; in particular a
fatal backfill failure leaves the mapping file written with the completed
moves. -/
theorem c10_theorem (env : BootEnv) (hwrest : List String)
    (mp : List (String × String)) (cmds : List OsCmd)
    (hmv : moveLoop env.cmdOk env.notInSwns env.hwports [] [] =
      Except.ok (hwrest, mp, cmds)) :
    (create_interfaces env).mappingFile = some mp := by
  simp only [create_interfaces, hmv]
  cases hbf : backfillLoop env.cmdOk env.inSwns hwrest cmds with
  | error p =>
    obtain ⟨cs2, e⟩ := p
    simp [hbf]
  | ok cmds2 =>
    cases ht : env.cmdOk OsCmd.touchReady <;> simp [hbf, ht]

/-- Witness for claim C10: on c10Env the backfill tap creation for label
3 fails fatally, yet the mapping file already holds the two completed
moves. -/
theorem c10_witness :
    (create_interfaces c10Env).error =
      some (PyErr.exceptionMsg "Failed to create tuntap") ∧
    (create_interfaces c10Env).mappingFile = some [("eth4", "1"), ("eth5", "2")] :=
  ⟨by decide,
   c10_theorem c10Env ["3"] [("eth4", "1"), ("eth5", "2")]
     [OsCmd.renameInt "eth4" "1", OsCmd.moveNetns "1",
      OsCmd.renameInt "eth5" "2", OsCmd.moveNetns "2"] (by rfl)⟩

/- ------------------------------------------------------------------ -/
/- Claim C4.                                                          -/
/- ------------------------------------------------------------------ -/

/-- Claim C4, corrected: when the response has a first row carrying a
cur_hw value, the configuration-applied check returns True exactly when
that value compares equal to 1 under Python equality, which holds for the
integer 1 and also for the boolean true (booleans are numeric in Python,
so true == 1); every other value, truthy or not, fails the check. -/
theorem c4_amended (resp : DbResponse) (r0 : ResItem) (rs : List ResItem)
    (row : List (String × PyVal)) (rws : List (List (String × PyVal)))
    (v : PyVal)
    (h1 : resp.result = r0 :: rs) (h2 : r0.rows = row :: rws)
    (h3 : dlookup "cur_hw" row = some v) :
    (cur_cfg_is_set_eval resp = CurCfgOutcome.ok (PyVal.vBool true) ↔
      (v = PyVal.vInt 1 ∨ v = PyVal.vBool true)) := by
  unfold cur_cfg_is_set_eval
  rw [h1]
  simp only [h2, h3]
  cases v with
  | vInt n => simp [pyEqOne]
  | vBool b => cases b <;> simp [pyEqOne]
  | vStr s => simp [pyEqOne]
  | vNone => simp [pyEqOne]

/-- Witness for claim C4: the response whose first row carries the
integer 1 satisfies the check. -/
theorem c4_witness :
    cur_cfg_is_set_eval c4RespOne = CurCfgOutcome.ok (PyVal.vBool true) :=
  (c4_amended c4RespOne ⟨[[("cur_hw", PyVal.vInt 1)]]⟩ []
    [("cur_hw", PyVal.vInt 1)] [] (PyVal.vInt 1) rfl rfl (by decide)).mpr
    (Or.inl rfl)

/-- Counterexample to claim C4 as stated: the response whose first row
carries cur_hw = true, the JSON boolean, satisfies the check even though
that value is a truthy value distinct from the integer 1, because Python
evaluates True == 1 to True. -/
theorem c4_counterexample :
    cur_cfg_is_set_eval c4RespTrue = CurCfgOutcome.ok (PyVal.vBool true) ∧
    PyVal.vBool true ≠ PyVal.vInt 1 ∧
    pyTruthy (PyVal.vBool true) = true := by decide

/- ------------------------------------------------------------------ -/
/- Claim C5.                                                          -/
/- ------------------------------------------------------------------ -/

/-- Claim C5, confirmed: a response with an empty result row-set makes
cur_cfg_is_set return the falsy value 0 (the IndexError from indexing the
empty rows list is caught), so the poll loop keeps polling until its
budget runs out instead of raising; a socket-level connect failure, in
contrast, raises immediately on the first poll iteration and aborts. -/
theorem c5_theorem (resp : DbResponse) (hre : rowSetEmpty resp)
    (w : CurCfgWorld) :
    (cur_cfg_is_set_eval resp = CurCfgOutcome.ok (PyVal.vInt 0) ∧
      pyTruthy (PyVal.vInt 0) = false) ∧
    (w.connectOk = true → (∀ s, w.resp s = resp) →
      ∀ b t, curCfgLoop w b t false = Except.ok none) ∧
    (w.connectOk = false →
      ∀ b t, 0 < b → curCfgLoop w b t false = Except.error PyErr.connectionError) := by
  refine ⟨⟨cur_cfg_rows_empty resp hre, rfl⟩, ?_, ?_⟩
  · intro hconn hresp b
    have aux : ∀ b t conn, curCfgLoop w b t conn = Except.ok none := by
      intro b
      induction b with
      | zero => intro t conn; rfl
      | succ b ih =>
        intro t conn
        have hcond : ¬ (conn = false ∧ w.connectOk = false) := by
          rintro ⟨h1x, h2x⟩
          rw [hconn] at h2x
          cases h2x
        unfold curCfgLoop
        rw [if_neg hcond, hresp t, cur_cfg_rows_empty resp hre]
        simp only [pyTruthy]
        simp
        exact ih (t + 1) true
    intro t
    exact aux b t false
  · intro hconn b t hb
    cases b with
    | zero => exact absurd hb (by simp)
    | succ b =>
      unfold curCfgLoop
      rw [if_pos ⟨rfl, hconn⟩]

/-- Witness for claim C5: the empty-rows response of the spec scenario
returns the falsy 0, a loop always seeing it polls to timeout without
raising, and a failing connect raises ConnectionError at once. -/
theorem c5_witness :
    (cur_cfg_is_set_eval ⟨[⟨[]⟩]⟩ = CurCfgOutcome.ok (PyVal.vInt 0) ∧
      pyTruthy (PyVal.vInt 0) = false) ∧
    curCfgLoop ⟨true, fun _ => ⟨[⟨[]⟩]⟩⟩ 3 0 false = Except.ok none ∧
    curCfgLoop ⟨false, fun _ => ⟨[⟨[]⟩]⟩⟩ 3 0 false =
      Except.error PyErr.connectionError :=
  ⟨(c5_theorem ⟨[⟨[]⟩]⟩ ⟨⟨[]⟩, [], rfl, rfl⟩ ⟨true, fun _ => ⟨[⟨[]⟩]⟩⟩).1,
   (c5_theorem ⟨[⟨[]⟩]⟩ ⟨⟨[]⟩, [], rfl, rfl⟩ ⟨true, fun _ => ⟨[⟨[]⟩]⟩⟩).2.1
     rfl (fun _ => rfl) 3 0,
   (c5_theorem ⟨[⟨[]⟩]⟩ ⟨⟨[]⟩, [], rfl, rfl⟩ ⟨false, fun _ => ⟨[⟨[]⟩]⟩⟩).2.2
     rfl 3 0 (by decide)⟩

/- ------------------------------------------------------------------ -/
/- Claim C6.                                                          -/
/- ------------------------------------------------------------------ -/

/-- Claim C6, confirmed: for a port label present in the node port table,
set_port_state re-lists the default-namespace interfaces on this very
call, issues exactly one administrative link command, for exactly the
device the table maps the label to, and wraps it in the swns namespace
context precisely when that device is absent from the freshly queried
outside listing. -/
theorem c6_theorem (ports : List (String × String)) (live : List String)
    (portlbl : String) (st : Bool) (iface : String)
    (h : dlookup portlbl ports = some iface) :
    set_port_state ports live portlbl st =
      Except.ok [DockerExec.lsNet,
        DockerExec.linkSet (!(live.contains iface)) iface st] ∧
    [DockerExec.lsNet,
      DockerExec.linkSet (!(live.contains iface)) iface st].countP isLinkSet = 1 := by
  constructor
  · unfold set_port_state
    rw [h]
  · simp [List.countP_cons, isLinkSet]

/-- Witness for claim C6: the table maps label eth4 to device 1; with a
live listing that does not contain device 1, the single link command is
wrapped in the namespace context. -/
theorem c6_witness :
    set_port_state [("eth4", "1")] ["lo", "oobm"] "eth4" true =
      Except.ok [DockerExec.lsNet,
        DockerExec.linkSet (!(["lo", "oobm"].contains "1")) "1" true] ∧
    [DockerExec.lsNet,
      DockerExec.linkSet (!(["lo", "oobm"].contains "1")) "1" true].countP
        isLinkSet = 1 :=
  c6_theorem [("eth4", "1")] ["lo", "oobm"] "eth4" true "1" (by decide)

/- ------------------------------------------------------------------ -/
/- Claim C7.                                                          -/
/- ------------------------------------------------------------------ -/

/-- Claim C7, corrected: the boot script has no skip mechanism at all;
the only command-line flag it reads is -d, which configures debug
logging, and the run outcome is identical for every argv. In particular
no argv token (such as ALL) suppresses a check: with the first check
predicate never true, the run still times out on the swns check and
provisioning never starts, for any argv. -/
theorem c7_amended (cT : Nat) (argv : List String) (w : World) :
    (mainScript cT argv w).2 = (mainScript cT [] w).2 ∧
    ((∀ t, w.swnsExists t = false) →
      (mainScript cT argv w).2.failedCheck = some BootCheck.swns ∧
      (mainScript cT argv w).2.ciTrace = none) := by
  refine ⟨rfl, ?_⟩
  intro hf
  have hpoll := pollLoop_eq_none w.swnsExists hf cT 0
  show (mainRun cT w).failedCheck = some BootCheck.swns ∧
    (mainRun cT w).ciTrace = none
  simp only [mainRun, hpoll]
  simp

/-- Witness for claim C7: with ALL passed on the command line and no
check predicate ever true, the swns check still times out and no
provisioning happens. -/
theorem c7_witness :
    (mainScript 2 ["ALL"] c7World).2.failedCheck = some BootCheck.swns ∧
    (mainScript 2 ["ALL"] c7World).2.ciTrace = none :=
  (c7_amended 2 ["ALL"] c7World).2 (fun _ => rfl)

/-- Counterexample to claim C7 as stated: requesting ALL does not make
the checks vacuously pass and does not let provisioning proceed; the run
with argv = [ALL] still raises the swns timeout, shows no provisioning,
and its outcome equals the outcome with empty argv. -/
theorem c7_counterexample :
    (mainScript 2 ["ALL"] c7World).2.failedCheck = some BootCheck.swns ∧
    (mainScript 2 ["ALL"] c7World).2.ciTrace = none ∧
    (mainScript 2 ["ALL"] c7World).2.error =
      some (PyErr.exceptionMsg "Timed out while waiting for swns.") ∧
    (mainScript 2 ["ALL"] c7World).2 = (mainScript 2 [] c7World).2 := by decide

/- ------------------------------------------------------------------ -/
/- Claim C8.                                                          -/
/- ------------------------------------------------------------------ -/

/-- Claim C8, confirmed: on a subsequent setup call the node port table
is merged with dict.update: entries whose key is absent from the new
mapping keep their value, entries whose key is present take the new
value, new keys are added, and no key is ever removed. -/
theorem c8_theorem (d m : List (String × String)) (k : String)
    (hm : (m.map Prod.fst).Nodup) :
    ((dlookup k d).isSome →
      (dlookup k (setup_ports_update (some d) m)).isSome) ∧
    (dlookup k m = none →
      dlookup k (setup_ports_update (some d) m) = dlookup k d) ∧
    (∀ v, dlookup k m = some v →
      dlookup k (setup_ports_update (some d) m) = some v) := by
  have hupd := dlookup_dictUpdate k m d hm
  refine ⟨?_, ?_, ?_⟩
  · intro hsome
    show (dlookup k (dictUpdate d m)).isSome
    rw [hupd]
    cases hkm : dlookup k m with
    | some v => simp
    | none => simpa using hsome
  · intro hnone
    show dlookup k (dictUpdate d m) = dlookup k d
    rw [hupd, hnone]
  · intro v hv
    show dlookup k (dictUpdate d m) = some v
    rw [hupd, hv]

/-- Witness for claim C8: merging a concrete mapping into a concrete
table preserves the untouched key eth1, overwrites key eth2, and adds
key eth3; nothing is removed. -/
theorem c8_witness :
    dlookup "eth1" (setup_ports_update (some [("eth1", "1"), ("eth2", "2")])
      [("eth2", "9"), ("eth3", "3")]) = some "1" ∧
    dlookup "eth2" (setup_ports_update (some [("eth1", "1"), ("eth2", "2")])
      [("eth2", "9"), ("eth3", "3")]) = some "9" ∧
    dlookup "eth3" (setup_ports_update (some [("eth1", "1"), ("eth2", "2")])
      [("eth2", "9"), ("eth3", "3")]) = some "3" := by
  refine ⟨?_, ?_, ?_⟩
  · have h := (c8_theorem [("eth1", "1"), ("eth2", "2")]
      [("eth2", "9"), ("eth3", "3")] "eth1" (by decide)).2.1 (by decide)
    rw [h]
    decide
  · exact (c8_theorem [("eth1", "1"), ("eth2", "2")]
      [("eth2", "9"), ("eth3", "3")] "eth2" (by decide)).2.2 "9" (by decide)
  · exact (c8_theorem [("eth1", "1"), ("eth2", "2")]
      [("eth2", "9"), ("eth3", "3")] "eth3" (by decide)).2.2 "3" (by decide)
